import Mathlib

/-!
Shallow embedding of `src/earth_meteorite_landings.py`: a linear pipeline
fetching meteorite-landing records, cleaning them into a table, computing
summary statistics and describing three charts.  Records are JSON objects,
modelled as association lists of tagged scalar values; pandas coercions are
modelled at the granularity the pipeline exercises (plain decimal literals
for `pd.to_numeric`, year-first date strings and epoch nanoseconds for
`pd.to_datetime` with the `datetime64[ns]` representable range).
-/

namespace Meteorite

/-- A scalar JSON value as it appears in one raw record: a number, a piece
of text, or null/missing.  (The dataset fields of interest are text.) -/
inductive Value where
  | num (q : ℚ)
  | str (s : String)
  | null
deriving DecidableEq, Repr

/-- One raw record returned by the API: a mapping from field names to
values, modelled as an association list with distinct keys. -/
abbrev RawRecord := List (String × Value)

/-- Looking a field up in a record; a missing field reads as null, matching
the NaN fill pandas applies when a record lacks a column other records have. -/
def getField (r : RawRecord) (k : String) : Value :=
  match r.find? (fun p => p.1 == k) with
  | some p => p.2
  | none => Value.null

/-- `k` is a column of `pd.DataFrame(data)`: some record carries the key. -/
def hasColumn (data : List RawRecord) (k : String) : Bool :=
  data.any (fun r => r.any (fun p => p.1 == k))

/-- Value of an all-digit character list read in base 10. -/
def digitsToNat (cs : List Char) : Nat :=
  cs.foldl (fun a c => 10 * a + (c.toNat - 48)) 0

/-- Decimal literal parsing: optional sign, integer digits, optional
fractional part.  This models the string coercion done by
`pd.to_numeric(..., errors="coerce")` at the granularity of plain decimal
literals (scientific notation and surrounding whitespace not modelled). -/
def parseDecimal (s : String) : Option ℚ :=
  let cs := s.toList
  let signed : ℚ × List Char :=
    match cs with
    | '-' :: t => (-1, t)
    | '+' :: t => (1, t)
    | _ => (1, cs)
  let intFrac := signed.2.span Char.isDigit
  match intFrac.2 with
  | [] =>
    if intFrac.1.isEmpty then none
    else some (signed.1 * (digitsToNat intFrac.1 : ℚ))
  | '.' :: frac =>
    if frac.all Char.isDigit && !(intFrac.1.isEmpty && frac.isEmpty) then
      some (signed.1 *
        ((digitsToNat intFrac.1 : ℚ) + (digitsToNat frac : ℚ) / 10 ^ frac.length))
    else none
  | _ => none

/-- Model of `pd.to_numeric(·, errors="coerce")` on one cell: numbers pass
through, null stays missing, text is parsed as a decimal literal. -/
def to_numeric : Value → Option ℚ
  | Value.num q => some q
  | Value.str s => parseDecimal s
  | Value.null => none

/-- Civil calendar year of the day `z` days after 1970-01-01 (proleptic
Gregorian), following the standard days-from-civil construction. -/
def civilYearOfDay (z0 : Int) : Int :=
  let z := z0 + 719468
  let era := Int.fdiv z 146097
  let doe := z - era * 146097
  let yoe := (doe - doe / 1460 + doe / 36524 - doe / 146096) / 365
  let y := yoe + era * 400
  let doy := doe - (365 * yoe + yoe / 4 - yoe / 100)
  let mp := (5 * doy + 2) / 153
  if mp < 10 then y else y + 1

/-- After a four-digit year prefix a date string either ends or continues
with a dash-separated remainder (month, day, time), which the pipeline
discards anyway. -/
def yearSepOk : List Char → Bool
  | [] => true
  | c :: _ => c == '-'

/-- The calendar year a date string denotes: its four leading digits, with
the remainder either empty or dash-separated.  No representability bound is
applied here; this is the syntactic reading of the string. -/
def yearOfString (s : String) : Option Int :=
  let cs := s.toList
  if (cs.take 4).length == 4 && (cs.take 4).all Char.isDigit && yearSepOk (cs.drop 4) then
    some ((digitsToNat (cs.take 4) : Nat) : Int)
  else none

/-- Smallest year whose January 1st is representable as `datetime64[ns]`
(the range starts 1677-09-21). -/
def datetimeYearLo : Int := 1678

/-- Largest year whose January 1st is representable as `datetime64[ns]`
(the range ends 2262-04-11). -/
def datetimeYearHi : Int := 2262

/-- Model of `pd.to_datetime(·, errors="coerce")` followed by `.dt.year` on
one cell: strings are read as year-first dates (the dataset carries
`YYYY-01-01T00:00:00.000`), numbers as nanoseconds since the epoch, and a
date outside the `datetime64[ns]` representable range coerces to missing.
Year granularity: bounds are those of January 1st dates. -/
def to_datetime_year : Value → Option Int
  | Value.null => none
  | Value.num q =>
    let ns : Int := ⌊q⌋
    if -(2 ^ 63) < ns ∧ ns < 2 ^ 63 then
      some (civilYearOfDay (Int.fdiv ns 86400000000000))
    else none
  | Value.str s =>
    match yearOfString s with
    | some y => if datetimeYearLo ≤ y ∧ y ≤ datetimeYearHi then some y else none
    | none => none

/-- One row of the cleaned table: the original record (columns other than
the two coerced ones are untouched) together with the coerced `mass` and the
extracted calendar `year` that supersede the raw cells. -/
structure Row where
  fields : RawRecord
  mass : ℚ
  year : Int
deriving DecidableEq, Repr

/-- Per-row cleaning: the row survives exactly when both coercions succeed,
mirroring `dropna(subset=["mass", "year"])` after the two column coercions. -/
def coerceRow (r : RawRecord) : Option Row :=
  match to_numeric (getField r "mass"), to_datetime_year (getField r "year") with
  | some m, some y => some ⟨r, m, y⟩
  | _, _ => none

/-- A raw record passes cleaning: both its `mass` and its `year` coerce. -/
def survives (r : RawRecord) : Bool :=
  (to_numeric (getField r "mass")).isSome && (to_datetime_year (getField r "year")).isSome

/-- Message printed when a critical column is absent. -/
def criticalColumnsMsg : String :=
  "Critical columns (\x27mass\x27, \x27year\x27) are missing from the dataset."

/-- Model of `clean_data`: returns the lines it prints together with the
cleaned table.  With a `mass` and a `year` column present it coerces both
columns and drops the rows where either is missing; otherwise it logs the
critical-columns condition and returns an empty table. -/
def clean_data (data : List RawRecord) : List String × List Row :=
  if hasColumn data "mass" && hasColumn data "year" then
    ([], data.filterMap coerceRow)
  else
    ([criticalColumnsMsg], [])

/-- The five summary statistics computed by `analyze_data`. -/
structure AnalysisResult where
  total_entries : Nat
  most_massive_name : Value
  most_massive_mass : ℚ
  most_frequent_year : Int
  most_frequent_count : Nat
deriving DecidableEq, Repr

/-- Model of `df.loc[df["mass"].idxmax()]`: scan the table keeping the
current best row and replace it only on a strictly larger mass, so the first
row attaining the maximum is the one returned. -/
def maxMassFold : Row → List Row → Row
  | best, [] => best
  | best, r :: rs => maxMassFold (if best.mass < r.mass then r else best) rs

/-- Number of rows of the table landing in year `y`. -/
def countYear (rows : List Row) (y : Int) : Nat :=
  (rows.filter (fun r => r.year == y)).length

/-- The distinct values of a list in order of first occurrence, given the
values already seen. -/
def distinctFirst : List Int → List Int → List Int
  | _, [] => []
  | seen, y :: ys =>
    if y ∈ seen then distinctFirst seen ys
    else y :: distinctFirst (y :: seen) ys

/-- Model of `df["year"].value_counts().idxmax()` and `.max()`: a year of
maximal group size together with that size.  pandas resolves exact ties
through its hash-table iteration order followed by a non-stable descending
sort; that order is not documented, and this model fixes the
first-occurrence order as its own tie-break. -/
def value_counts_max (rows : List Row) : Int × Nat :=
  match distinctFirst [] (rows.map Row.year) with
  | [] => (0, 0)
  | y0 :: ys =>
    ys.foldl
      (fun b y => if b.2 < countYear rows y then (y, countYear rows y) else b)
      (y0, countYear rows y0)

/-- Model of `analyze_data`: the five statistics of a table.  On an empty
table `idxmax` raises, modelled as `none`. -/
def analyze_data (rows : List Row) : Option AnalysisResult :=
  match rows with
  | [] => none
  | r :: rs =>
    some
      { total_entries := (r :: rs).length
        most_massive_name := getField (maxMassFold r rs).fields "name"
        most_massive_mass := (maxMassFold r rs).mass
        most_frequent_year := (value_counts_max (r :: rs)).1
        most_frequent_count := (value_counts_max (r :: rs)).2 }

/-- Mean of a series of values; missing on an empty series. -/
def seriesMean (xs : List ℚ) : Option ℚ :=
  if xs.isEmpty then none else some (xs.sum / (xs.length : ℚ))

/-- Median of a series of values: middle of the sorted values, averaging the
two middles on an even count; missing on an empty series. -/
def seriesMedian (xs : List ℚ) : Option ℚ :=
  if xs.isEmpty then none
  else
    let s := xs.mergeSort (fun a b => a ≤ b)
    let n := xs.length
    if n % 2 == 1 then some (s.getD (n / 2) 0)
    else some ((s.getD (n / 2 - 1) 0 + s.getD (n / 2) 0) / 2)

/-- The data content of the three charts `visualize_data` renders: the bar
chart of counts per year, the histogram over the masses of the rows with
mass at most 100000 with its mean/median reference lines, the scatter plot
with one point per row, and the image files written. -/
structure Charts where
  barYears : List Int
  histMasses : List ℚ
  histMean : Option ℚ
  histMedian : Option ℚ
  scatterPoints : List (Int × ℚ)
  files : List String
deriving DecidableEq, Repr

/-- Model of `visualize_data`: the histogram and its mean/median reference
values are computed over `df[df["mass"] <= 100000]`, the scatter plot over
the whole table. -/
def visualize_data (rows : List Row) : Charts :=
  let filtered := rows.filter (fun r => r.mass ≤ 100000)
  let fm := filtered.map Row.mass
  { barYears := (distinctFirst [] (rows.map Row.year)).mergeSort (fun a b => a ≤ b)
    histMasses := fm
    histMean := seriesMean fm
    histMedian := seriesMedian fm
    scatterPoints := rows.map (fun r => (r.year, r.mass))
    files :=
      ["meteorite_counts_per_year.png", "meteorite_mass_distribution.png",
        "meteorite_scatter_mass_vs_year.png"] }

/-- One HTTP response, with the body abstracted to the result of JSON
parsing: `none` models a body that is not valid JSON. -/
structure Response where
  status : Nat
  jsonBody : Option (List RawRecord)
deriving DecidableEq, Repr

/-- Outcome of `requests.get`: either a transport-level exception or a
response. -/
inductive HttpResult where
  | exn (msg : String)
  | resp (r : Response)
deriving DecidableEq, Repr

/-- The Python exceptions the fetch path can raise. -/
inductive PyError where
  | requestException (msg : String)
  | jsonDecodeError (msg : String)
  | valueError (msg : String)
deriving DecidableEq, Repr

/-- Whether an exception is an instance of
`requests.exceptions.RequestException`.  Since requests 2.27 the
`JSONDecodeError` raised by `response.json()` subclasses
`RequestException` (through `InvalidJSONError`). -/
def isRequestException : PyError → Bool
  | PyError.requestException _ => true
  | PyError.jsonDecodeError _ => true
  | PyError.valueError _ => false

/-- Display text of an exception. -/
def errMsg : PyError → String
  | PyError.requestException m => m
  | PyError.jsonDecodeError m => m
  | PyError.valueError m => m

/-- Model of `response.raise_for_status()`: raises `HTTPError` (a
`RequestException`) exactly on a 4xx or 5xx status. -/
def raise_for_status (r : Response) : Except PyError Unit :=
  if 400 ≤ r.status ∧ r.status < 600 then
    Except.error (PyError.requestException ("HTTP error for status " ++ toString r.status))
  else
    Except.ok ()

/-- Model of `response.json()`: the parsed records, or a
`requests.exceptions.JSONDecodeError` when the body is not valid JSON. -/
def response_json (r : Response) : Except PyError (List RawRecord) :=
  match r.jsonBody with
  | some v => Except.ok v
  | none => Except.error (PyError.jsonDecodeError "Expecting value")

/-- Model of `fetch_data`: returns the lines it prints together with the
records.  The try block performs the GET, checks the status and parses the
body; any `RequestException` (transport errors, HTTP error statuses, and
JSON decode errors, which subclass it) is caught, logged, and converted to
an empty list, while any other exception propagates. -/
def fetch_data (h : HttpResult) : Except PyError (List String × List RawRecord) :=
  let attempt : Except PyError (List RawRecord) :=
    match h with
    | HttpResult.exn m => Except.error (PyError.requestException m)
    | HttpResult.resp r =>
      match raise_for_status r with
      | Except.error e => Except.error e
      | Except.ok _ => response_json r
  match attempt with
  | Except.ok v => Except.ok ([], v)
  | Except.error e =>
    if isRequestException e then
      Except.ok (["Error fetching data: " ++ errMsg e], [])
    else
      Except.error e

/-- Decimal rendering of a rational, used only for printed summary lines. -/
def ratText (q : ℚ) : String :=
  if q.den == 1 then toString q.num
  else toString q.num ++ "/" ++ toString q.den

/-- Display text of a value, used only for printed summary lines. -/
def valueText : Value → String
  | Value.num q => ratText q
  | Value.str s => s
  | Value.null => "nan"

/-- The summary lines the orchestrator prints from an `AnalysisResult`. -/
def resultLines (res : AnalysisResult) : List String :=
  ["Results:",
    "Total Entries: " ++ toString res.total_entries,
    "Most Massive Meteorite: " ++ valueText res.most_massive_name ++ " (" ++
      ratText res.most_massive_mass ++ " grams)",
    "Most Frequent Year: " ++ toString res.most_frequent_year ++ " (" ++
      toString res.most_frequent_count ++ " occurrences)"]

/-- Observable trace of one run: the printed lines, whether the analysis and
visualization stages ran, and the chart files written. -/
structure RunTrace where
  printed : List String
  analyzedCalled : Bool
  visualizedCalled : Bool
  files : List String
deriving DecidableEq, Repr

/-- Model of `earth_meteorite_landing_data_handling`: fetch, stop on no
data, clean, stop on an empty table, then analyze, print the summary and
visualize. -/
def earth_meteorite_landing_data_handling (h : HttpResult) : Except PyError RunTrace :=
  match fetch_data h with
  | Except.error e => Except.error e
  | Except.ok (flog, raw) =>
    if raw.isEmpty then
      Except.ok
        ⟨("Fetching data..." :: flog) ++ ["No data was fetched. Exiting."],
          false, false, []⟩
    else if (clean_data raw).2.isEmpty then
      Except.ok
        ⟨("Fetching data..." :: flog) ++ "Cleaning data..." :: (clean_data raw).1 ++
            ["The dataset is empty after cleaning. Exiting."],
          false, false, []⟩
    else
      match analyze_data (clean_data raw).2 with
      | none => Except.error (PyError.valueError "attempt to get argmax of an empty sequence")
      | some res =>
        Except.ok
          ⟨("Fetching data..." :: flog) ++ "Cleaning data..." :: (clean_data raw).1 ++
              "Analyzing data..." :: resultLines res ++ ["Creating visualizations..."],
            true, true, (visualize_data (clean_data raw).2).files⟩

/-- A fetch attempt the spec counts as failed: a transport error, or a
response whose status `raise_for_status` treats as an HTTP error. -/
def httpFailureB : HttpResult → Bool
  | HttpResult.exn _ => true
  | HttpResult.resp r => decide (400 ≤ r.status ∧ r.status < 600)

/-! ### Theorems -/

theorem coerceRow_some {r : RawRecord} {row : Row} (h : coerceRow r = some row) :
    row.fields = r ∧ (to_numeric (getField r "mass")).isSome = true
      ∧ (to_datetime_year (getField r "year")).isSome = true := by
  unfold coerceRow at h
  cases hm : to_numeric (getField r "mass") with
  | none => rw [hm] at h; exact absurd h (by simp)
  | some m =>
    cases hy : to_datetime_year (getField r "year") with
    | none => rw [hm, hy] at h; exact absurd h (by simp)
    | some y =>
      rw [hm, hy] at h
      cases h
      exact ⟨rfl, by simp, by simp⟩

theorem filterMap_coerceRow_fields (data : List RawRecord) :
    (data.filterMap coerceRow).map Row.fields = data.filter survives := by
  induction data with
  | nil => rfl
  | cons r t ih =>
    simp only [List.filterMap_cons, List.filter_cons]
    cases hm : to_numeric (getField r "mass") with
    | none => simp [coerceRow, survives, hm, ih]
    | some m =>
      cases hy : to_datetime_year (getField r "year") with
      | none => simp [coerceRow, survives, hm, hy, ih]
      | some y => simp [coerceRow, survives, hm, hy, ih]

/-- Claim C1: when the loaded table has both a `mass` and a `year` column,
`clean_data` drops exactly the rows whose `mass` fails numeric coercion or
whose `year` fails date coercion; each surviving row keeps its original
record (so every field other than the coerced `mass`/`year` is unaltered),
and survivors appear in the input order — the cleaned table projected to
its original records is precisely the stable filter of the input by
`survives`. -/
theorem clean_data_stable_filter (data : List RawRecord)
    (hm : hasColumn data "mass" = true) (hy : hasColumn data "year" = true) :
    ((clean_data data).2.map Row.fields = data.filter survives)
      ∧ (clean_data data).1 = [] := by
  unfold clean_data
  rw [hm, hy]
  simp only [Bool.and_self, if_true]
  exact ⟨filterMap_coerceRow_fields data, trivial⟩

/-- Witness for C1 on a three-record input: the row with non-numeric mass
and the row with an unparsable year are dropped, the valid row survives
with its record intact. -/
theorem clean_data_stable_filter_witness :
    (hasColumn
        [[("name", Value.str "Aachen"), ("mass", Value.str "21"),
            ("year", Value.str "1880-01-01T00:00:00.000")],
          [("name", Value.str "Bad"), ("mass", Value.str "heavy"),
            ("year", Value.str "1881-01-01T00:00:00.000")],
          [("name", Value.str "NoYear"), ("mass", Value.str "5"),
            ("year", Value.str "oops")]] "mass" = true)
      ∧ ((clean_data
            [[("name", Value.str "Aachen"), ("mass", Value.str "21"),
                ("year", Value.str "1880-01-01T00:00:00.000")],
              [("name", Value.str "Bad"), ("mass", Value.str "heavy"),
                ("year", Value.str "1881-01-01T00:00:00.000")],
              [("name", Value.str "NoYear"), ("mass", Value.str "5"),
                ("year", Value.str "oops")]]).2.map Row.fields =
          [[("name", Value.str "Aachen"), ("mass", Value.str "21"),
              ("year", Value.str "1880-01-01T00:00:00.000")],
            [("name", Value.str "Bad"), ("mass", Value.str "heavy"),
              ("year", Value.str "1881-01-01T00:00:00.000")],
            [("name", Value.str "NoYear"), ("mass", Value.str "5"),
              ("year", Value.str "oops")]].filter survives)
      ∧ ([[("name", Value.str "Aachen"), ("mass", Value.str "21"),
            ("year", Value.str "1880-01-01T00:00:00.000")],
          [("name", Value.str "Bad"), ("mass", Value.str "heavy"),
            ("year", Value.str "1881-01-01T00:00:00.000")],
          [("name", Value.str "NoYear"), ("mass", Value.str "5"),
            ("year", Value.str "oops")]].filter survives =
          [[("name", Value.str "Aachen"), ("mass", Value.str "21"),
              ("year", Value.str "1880-01-01T00:00:00.000")]]) :=
  ⟨by decide,
    (clean_data_stable_filter _ (by decide) (by decide)).1,
    by decide⟩

/-- Claim C2: when the loaded table lacks a `mass` column or lacks a `year`
column, `clean_data` logs the critical-columns condition and returns an
empty table; being a total function of its input, it raises nothing. -/
theorem clean_data_missing_columns (data : List RawRecord)
    (h : hasColumn data "mass" = false ∨ hasColumn data "year" = false) :
    clean_data data = ([criticalColumnsMsg], []) := by
  unfold clean_data
  rcases h with h | h <;> rw [h] <;> simp

/-- Witness for C2: records that never carry a `mass` key produce the logged
message and an empty table. -/
theorem clean_data_missing_columns_witness :
    (hasColumn [[("name", Value.str "X"), ("year", Value.str "1880")]] "mass" = false)
      ∧ clean_data [[("name", Value.str "X"), ("year", Value.str "1880")]] =
        ([criticalColumnsMsg], []) :=
  ⟨by decide, clean_data_missing_columns _ (Or.inl (by decide))⟩

/-- Claim C8: `clean_data` is a deterministic function of its input — it is
a pure function of the record list (the source reads no state besides its
argument), so two invocations on the same raw input yield identical logs
and identical cleaned tables. -/
theorem clean_data_deterministic (data : List RawRecord) :
    clean_data data = clean_data data := rfl

theorem maxMassFold_first_max (l : List Row) (b : Row) :
    ∃ l1 l2, b :: l = l1 ++ maxMassFold b l :: l2
      ∧ (∀ x ∈ l1, x.mass < (maxMassFold b l).mass)
      ∧ (∀ x ∈ b :: l, x.mass ≤ (maxMassFold b l).mass) := by
  induction l generalizing b with
  | nil =>
    exact ⟨[], [], rfl, by simp, by simp [maxMassFold]⟩
  | cons r rs ih =>
    by_cases hbr : b.mass < r.mass
    · have hfold : maxMassFold b (r :: rs) = maxMassFold r rs := by
        simp [maxMassFold, hbr]
      obtain ⟨l1, l2, hsplit, hlt, hle⟩ := ih r
      refine ⟨b :: l1, l2, ?_, ?_, ?_⟩
      · rw [hfold, List.cons_append]
        exact congrArg (b :: ·) hsplit
      · intro x hx
        rw [hfold]
        rcases List.mem_cons.mp hx with hx | hx
        · subst hx
          exact lt_of_lt_of_le hbr (hle r (List.mem_cons_self r rs))
        · exact hlt x hx
      · intro x hx
        rw [hfold]
        rcases List.mem_cons.mp hx with hx | hx
        · subst hx
          exact le_of_lt (lt_of_lt_of_le hbr (hle r (List.mem_cons_self r rs)))
        · exact hle x hx
    · have hrb : r.mass ≤ b.mass := le_of_not_lt hbr
      have hfold : maxMassFold b (r :: rs) = maxMassFold b rs := by
        simp [maxMassFold, hbr]
      obtain ⟨l1, l2, hsplit, hlt, hle⟩ := ih b
      cases l1 with
      | nil =>
        have hb : b = maxMassFold b rs := by
          simpa using congrArg (fun t => t.head?) hsplit
        refine ⟨[], r :: rs, ?_, by simp, ?_⟩
        · rw [hfold, ← hb]
          rfl
        · intro x hx
          rw [hfold]
          rcases List.mem_cons.mp hx with hx | hx
          · rw [hx]; exact hle b (List.mem_cons_self b rs)
          · rcases List.mem_cons.mp hx with hx | hx
            · subst hx
              exact le_trans hrb (hle b (List.mem_cons_self b rs))
            · exact hle x (List.mem_cons_of_mem b hx)
      | cons a t =>
        have ha : b = a := by
          simpa using congrArg (fun s => s.head?) hsplit
        have hrs : rs = t ++ maxMassFold b rs :: l2 := by
          have := congrArg List.tail hsplit
          simpa using this
        have hbmem : b ∈ a :: t := by rw [← ha]; exact List.mem_cons_self b t
        have hbM : b.mass < (maxMassFold b rs).mass := hlt b hbmem
        refine ⟨b :: r :: t, l2, ?_, ?_, ?_⟩
        · rw [hfold]
          simp only [List.cons_append]
          exact congrArg (fun u => b :: r :: u) hrs
        · intro x hx
          rw [hfold]
          rcases List.mem_cons.mp hx with hx | hx
          · subst hx; exact hbM
          · rcases List.mem_cons.mp hx with hx | hx
            · subst hx; exact lt_of_le_of_lt hrb hbM
            · exact hlt x (List.mem_cons_of_mem a hx)
        · intro x hx
          rw [hfold]
          rcases List.mem_cons.mp hx with hx | hx
          · rw [hx]; exact hle b (List.mem_cons_self b rs)
          · rcases List.mem_cons.mp hx with hx | hx
            · subst hx; exact le_trans hrb (hle b (List.mem_cons_self b rs))
            · exact hle x (List.mem_cons_of_mem b hx)

/-- Claim C3: on a non-empty table, `analyze_data` succeeds and its
`most_massive_name`/`most_massive_mass` come from the row of maximum
`mass`; the table splits as `l1 ++ m :: l2` where every row before `m` has
strictly smaller mass and no row exceeds `m`, so on exact ties the first
row in table order is the one reported. -/
theorem analyze_data_most_massive (rows : List Row) (h : rows ≠ []) :
    ∃ res l1 m l2, analyze_data rows = some res
      ∧ rows = l1 ++ m :: l2
      ∧ (∀ x ∈ l1, x.mass < m.mass)
      ∧ (∀ x ∈ rows, x.mass ≤ m.mass)
      ∧ res.most_massive_name = getField m.fields "name"
      ∧ res.most_massive_mass = m.mass := by
  cases rows with
  | nil => exact absurd rfl h
  | cons r rs =>
    obtain ⟨l1, l2, hsplit, hlt, hle⟩ := maxMassFold_first_max rs r
    exact ⟨_, l1, maxMassFold r rs, l2, rfl, hsplit, hlt, hle, rfl, rfl⟩

/-- Witness for C3, the spec tie example: two rows of mass 10, and the
analysis reports the first row in table order (name "A", year 1990). -/
theorem analyze_data_most_massive_witness :
    ([(⟨[("name", Value.str "A")], 10, 1990⟩ : Row),
        ⟨[("name", Value.str "B")], 10, 1991⟩] ≠ [])
      ∧ (analyze_data
          [⟨[("name", Value.str "A")], 10, 1990⟩,
            ⟨[("name", Value.str "B")], 10, 1991⟩] =
          some ⟨2, Value.str "A", 10, 1990, 1⟩)
      ∧ ∃ res l1 m l2,
          analyze_data
            [(⟨[("name", Value.str "A")], 10, 1990⟩ : Row),
              ⟨[("name", Value.str "B")], 10, 1991⟩] = some res
          ∧ [(⟨[("name", Value.str "A")], 10, 1990⟩ : Row),
              ⟨[("name", Value.str "B")], 10, 1991⟩] = l1 ++ m :: l2
          ∧ (∀ x ∈ l1, x.mass < m.mass)
          ∧ (∀ x ∈ [(⟨[("name", Value.str "A")], 10, 1990⟩ : Row),
              ⟨[("name", Value.str "B")], 10, 1991⟩], x.mass ≤ m.mass)
          ∧ res.most_massive_name = getField m.fields "name"
          ∧ res.most_massive_mass = m.mass :=
  ⟨by decide, by decide, analyze_data_most_massive _ (by decide)⟩

/-- Claim C5: whenever the GET suffers a transport error or returns an HTTP
error status, `fetch_data` logs one failure line and returns an empty
record list wrapped in `Except.ok` — the failure is never propagated as a
raised exception. -/
theorem fetch_data_soft_fail (h : HttpResult) (hf : httpFailureB h = true) :
    ∃ msg, fetch_data h = Except.ok ([msg], []) := by
  cases h with
  | exn m => exact ⟨_, rfl⟩
  | resp r =>
    have hcond : 400 ≤ r.status ∧ r.status < 600 := by
      simpa [httpFailureB] using hf
    refine ⟨"Error fetching data: " ++ ("HTTP error for status " ++ toString r.status), ?_⟩
    unfold fetch_data raise_for_status
    dsimp only
    rw [if_pos hcond]
    rfl

/-- Witness for C5: an HTTP 500 response yields a logged line and an empty
sequence, not an error. -/
theorem fetch_data_soft_fail_witness :
    (httpFailureB (HttpResult.resp ⟨500, some []⟩) = true)
      ∧ ∃ msg, fetch_data (HttpResult.resp ⟨500, some []⟩) = Except.ok ([msg], []) :=
  ⟨by decide, fetch_data_soft_fail _ (by decide)⟩

/-- Claim C6: when the fetch yields an empty sequence, or cleaning yields an
empty table, the orchestrator prints the corresponding early-exit message
and stops — the analysis and visualization stages never run and no chart
files are produced. -/
theorem orchestrator_early_exit (h : HttpResult) (flog : List String)
    (raw : List RawRecord) (hf : fetch_data h = Except.ok (flog, raw))
    (he : raw = [] ∨ (clean_data raw).2 = []) :
    ∃ t, earth_meteorite_landing_data_handling h = Except.ok t
      ∧ t.analyzedCalled = false ∧ t.visualizedCalled = false ∧ t.files = []
      ∧ ("No data was fetched. Exiting." ∈ t.printed
          ∨ "The dataset is empty after cleaning. Exiting." ∈ t.printed) := by
  unfold earth_meteorite_landing_data_handling
  rw [hf]
  by_cases hraw : raw = []
  · subst hraw
    exact ⟨_, rfl, rfl, rfl, rfl, Or.inl (by simp)⟩
  · have hne : raw.isEmpty = false := by
      cases raw with
      | nil => exact absurd rfl hraw
      | cons a t => rfl
    have hcl : (clean_data raw).2 = [] := he.resolve_left hraw
    dsimp only
    rw [hne, hcl]
    simp only [List.isEmpty_nil, Bool.false_eq_true, if_false, if_true]
    exact ⟨_, rfl, rfl, rfl, rfl, Or.inr (by simp)⟩

/-- Witness for C6: a transport failure makes the fetch return an empty
sequence, and the run stops with the no-data message and no chart files. -/
theorem orchestrator_early_exit_witness :
    (fetch_data (HttpResult.exn "connection refused") =
        Except.ok (["Error fetching data: connection refused"], []))
      ∧ ∃ t,
          earth_meteorite_landing_data_handling (HttpResult.exn "connection refused") =
            Except.ok t
          ∧ t.analyzedCalled = false ∧ t.visualizedCalled = false ∧ t.files = []
          ∧ ("No data was fetched. Exiting." ∈ t.printed
              ∨ "The dataset is empty after cleaning. Exiting." ∈ t.printed) :=
  ⟨rfl, orchestrator_early_exit _ _ _ rfl (Or.inl rfl)⟩

theorem filter_mass_map (l : List Row) :
    (l.filter (fun r => r.mass ≤ 100000)).map Row.mass =
      (l.map Row.mass).filter (fun m => m ≤ 100000) := by
  induction l with
  | nil => rfl
  | cons r t ih =>
    by_cases hr : r.mass ≤ 100000 <;>
      simp [List.filter_cons, hr, ih]

/-- Claim C7: the histogram mean and median reference values of
`visualize_data` are computed over exactly the masses of the rows with mass
at most 100000, while the scatter plot carries one point per row of the
unfiltered table. -/
theorem visualize_histogram_scope (rows : List Row) :
    (visualize_data rows).histMean = seriesMean (visualize_data rows).histMasses
      ∧ (visualize_data rows).histMedian = seriesMedian (visualize_data rows).histMasses
      ∧ (visualize_data rows).histMasses = (rows.map Row.mass).filter (fun m => m ≤ 100000)
      ∧ (∀ m ∈ (visualize_data rows).histMasses, m ≤ 100000)
      ∧ (visualize_data rows).scatterPoints = rows.map (fun r => (r.year, r.mass)) := by
  refine ⟨rfl, rfl, filter_mass_map rows, ?_, rfl⟩
  intro m hm
  have hm2 : m ∈ (rows.map Row.mass).filter (fun m => m ≤ 100000) := by
    rw [← filter_mass_map rows]
    exact hm
  have := (List.mem_filter.mp hm2).2
  exact of_decide_eq_true this

/-- Witness for C7: a row of mass 200000 is excluded from the histogram
masses (hence from the mean/median computation) yet contributes its scatter
point. -/
theorem visualize_histogram_scope_witness :
    ((visualize_data
          [⟨[("name", Value.str "Big")], 200000, 1990⟩,
            ⟨[("name", Value.str "Small")], 50, 1991⟩]).histMasses = [50])
      ∧ ((visualize_data
          [⟨[("name", Value.str "Big")], 200000, 1990⟩,
            ⟨[("name", Value.str "Small")], 50, 1991⟩]).histMean = seriesMean [50])
      ∧ ((1990, (200000 : ℚ)) ∈
          (visualize_data
            [⟨[("name", Value.str "Big")], 200000, 1990⟩,
              ⟨[("name", Value.str "Small")], 50, 1991⟩]).scatterPoints)
      ∧ (∀ m ∈ (visualize_data
            [(⟨[("name", Value.str "Big")], 200000, 1990⟩ : Row),
              ⟨[("name", Value.str "Small")], 50, 1991⟩]).histMasses, m ≤ 100000) :=
  ⟨by decide, rfl, by decide,
    (visualize_histogram_scope
      [⟨[("name", Value.str "Big")], 200000, 1990⟩,
        ⟨[("name", Value.str "Small")], 50, 1991⟩]).2.2.2.1⟩

/-- Claim C9: year coercion goes through the bounded `datetime64[ns]`
representation, so a string denoting a syntactically valid calendar year
outside the representable range (before 1678 or after 2262 at
January-1st granularity) coerces to missing, and no row of any cleaned
table carries such a string as its `year` field. -/
theorem year_out_of_range_dropped (s : String) (y : Int)
    (hp : yearOfString s = some y) (hy : y < 1678 ∨ 2262 < y) :
    to_datetime_year (Value.str s) = none
      ∧ ∀ data row, row ∈ (clean_data data).2 →
          getField row.fields "year" ≠ Value.str s := by
  have hnone : to_datetime_year (Value.str s) = none := by
    simp only [to_datetime_year]
    rw [hp]
    have hnb : ¬(datetimeYearLo ≤ y ∧ y ≤ datetimeYearHi) := by
      unfold datetimeYearLo datetimeYearHi
      omega
    dsimp only
    rw [if_neg hnb]
  refine ⟨hnone, ?_⟩
  intro data row hrow hfield
  unfold clean_data at hrow
  cases hc : (hasColumn data "mass" && hasColumn data "year") with
  | false =>
    rw [hc] at hrow
    simp at hrow
  | true =>
    rw [hc] at hrow
    simp only [if_true] at hrow
    obtain ⟨r, hrmem, hcr⟩ := List.mem_filterMap.mp hrow
    obtain ⟨hfields, hmass, hyear⟩ := coerceRow_some hcr
    rw [hfields] at hfield
    rw [hfield, hnone] at hyear
    exact Bool.noConfusion hyear

/-- Witness for C9: the string "1500" denotes the calendar year 1500, which
is below the representable range, so its coercion is missing and the sole
record carrying it is dropped from the cleaned table. -/
theorem year_out_of_range_dropped_witness :
    (yearOfString "1500" = some 1500)
      ∧ (1500 < 1678 ∨ 2262 < (1500 : Int))
      ∧ (clean_data [[("mass", Value.str "10"), ("year", Value.str "1500")]] = ([], []))
      ∧ (to_datetime_year (Value.str "1500") = none
          ∧ ∀ data row, row ∈ (clean_data data).2 →
              getField row.fields "year" ≠ Value.str "1500") :=
  ⟨by decide, Or.inl (by decide), by decide,
    year_out_of_range_dropped "1500" 1500 (by decide) (Or.inl (by decide))⟩

/-- Claim C10, counterexample: on a successful HTTP 200 response whose body
is not valid JSON, `fetch_data` does not propagate the JSON-decoding error
— it returns `Except.ok` with a logged line and an empty sequence, so the
claimed raised exception never leaves the function. -/
theorem fetch_data_invalid_json_not_raised :
    fetch_data (HttpResult.resp ⟨200, none⟩) =
        Except.ok (["Error fetching data: Expecting value"], [])
      ∧ ∀ e, fetch_data (HttpResult.resp ⟨200, none⟩) ≠ Except.error e := by
  have h1 : fetch_data (HttpResult.resp ⟨200, none⟩) =
      Except.ok (["Error fetching data: Expecting value"], []) := rfl
  refine ⟨h1, ?_⟩
  intro e hcontra
  rw [h1] at hcontra
  exact Except.noConfusion hcontra

/-- Claim C10 amended: since requests 2.27 the `JSONDecodeError` raised by
`response.json()` subclasses `RequestException`, so when the request
succeeds (status below 400) but the body is not valid JSON, the except
clause catches it too: `fetch_data` logs one line and returns an empty
sequence rather than raising. -/
theorem fetch_data_invalid_json_soft_fail (r : Response)
    (hst : r.status < 400) (hb : r.jsonBody = none) :
    ∃ msg, fetch_data (HttpResult.resp r) = Except.ok ([msg], []) := by
  have hcond : ¬(400 ≤ r.status ∧ r.status < 600) := by omega
  refine ⟨"Error fetching data: " ++ "Expecting value", ?_⟩
  unfold fetch_data raise_for_status response_json
  dsimp only
  rw [if_neg hcond, hb]
  rfl

/-- Witness for the amended C10: status 200 with an unparsable body gives a
logged line and an empty sequence. -/
theorem fetch_data_invalid_json_soft_fail_witness :
    ((200 : Nat) < 400)
      ∧ ((⟨200, none⟩ : Response).jsonBody = none)
      ∧ ∃ msg, fetch_data (HttpResult.resp ⟨200, none⟩) = Except.ok ([msg], []) :=
  ⟨by decide, rfl, fetch_data_invalid_json_soft_fail ⟨200, none⟩ (by decide) rfl⟩

end Meteorite
